import Mathlib

/-!
# reminder-service: shallow embedding and verification

This file embeds the reminder-service repository in Lean 4 and proves
properties of it. The repository has two variants of the HTTP handlers:

* the Firebase variant (`src/server.js`, second document: handlers with the
  `logChange` audit logger backed by a Firestore-like document store), and
* the in-memory variant (`src/unnamed/part_000`: handlers over an in-process
  map from `userId` to an array of reminders).

The external document store is modelled by explicit state passing: a
`FireState` holds the `reminders` collection (a list of id/data documents),
the `logs` collection, the `users` collection, a fresh-id counter and the
server clock. Each handler is a pure function from a request and a state to
a response, a new state, and a trace of store events (`StoreEvent`) recording
the order of the store writes the handler issues. JavaScript truthiness on
request fields (`undefined` and `""` are both falsy) is modelled with
`Option String` and the `truthy` predicate; `undefined`-vs-present tests
(`x !== undefined`) are `Option.isSome`. Fallibility of the external
collaborators used by the audit logger (the user-directory lookup and the
log append) is modelled by the `FailFlags` oracle; the `try/catch` blocks of
`logChange` make it total in every case, mirroring the source.
-/

/-- A stored reminder record (the document data written by the Create
handler in `src/server.js`): `userId`, `title`, `description`, `datetime`,
`completed`, `createdAt`. -/
structure ReminderData where
  userId : String
  title : String
  description : String
  datetime : String
  completed : Bool
  createdAt : Nat
deriving Repr, DecidableEq

/-- A document of the `reminders` collection: the store-assigned id together
with the record data (the `{reminderId: doc.id, ...doc.data()}` shape). -/
structure RDoc where
  id : String
  data : ReminderData
deriving Repr, DecidableEq

/-- A document of the `users` collection (the user directory).
`name = none` models a user document whose `name` field is missing. -/
structure UserDoc where
  id : String
  name : Option String
  role : String
  organizationId : String
deriving Repr, DecidableEq

/-- The partial-update object `updates` built by the Update handler:
a field is `none` exactly when the corresponding key is absent. -/
structure UpdatePatch where
  title : Option String
  description : Option String
  datetime : Option String
  completed : Option Bool
deriving Repr, DecidableEq

/-- The empty patch `{}`. -/
def UpdatePatch.emptyPatch : UpdatePatch := ⟨none, none, none, none⟩

/-- The JS object spread `{...oldData, ...updates}`: keys present in the
patch override, absent keys keep the old values. This is also the store's
`update(collection, id, partialFields)` merge semantics. -/
def applyPatch (d : ReminderData) (p : UpdatePatch) : ReminderData :=
  { d with
    title := p.title.getD d.title
    description := p.description.getD d.description
    datetime := p.datetime.getD d.datetime
    completed := p.completed.getD d.completed }

/-- The `details` payload of a log entry: `{data}` for CREATE and DELETE,
`{oldData, newData}` for UPDATE (mirroring the three `logChange` call
sites in `src/server.js`). -/
inductive LogDetails where
  | createData (data : ReminderData)
  | updateData (oldData : ReminderData) (newData : UpdatePatch)
  | deleteData (data : ReminderData)
deriving Repr, DecidableEq

/-- A document of the `logs` collection, as built by `logChange`. -/
structure LogEntry where
  timestamp : Nat
  action : String
  userId : String
  userName : String
  entity : String
  entityId : String
  entityName : String
  details : LogDetails
deriving Repr, DecidableEq

/-- The state of the external document store (plus the server clock and the
store's fresh-id source). -/
structure FireState where
  reminders : List RDoc
  logs : List LogEntry
  users : List UserDoc
  nextId : Nat
  now : Nat
deriving Repr, DecidableEq

/-- Failure oracle for the external collaborators touched by `logChange`:
whether the user-directory `get` throws, and whether the `logs.add` append
throws. -/
structure FailFlags where
  userLookupFails : Bool
  logAppendFails : Bool
deriving Repr, DecidableEq

/-- One store write issued by a handler, in issue order. -/
inductive StoreEvent where
  | addReminder (id : String) (data : ReminderData)
  | updateReminder (id : String) (patch : UpdatePatch)
  | deleteReminder (id : String)
  | appendLog (entry : LogEntry)
  | queryRemindersIn (userIds : List String)
deriving Repr, DecidableEq

/-- JS truthiness of an optional string request field: `undefined` and the
empty string are falsy, every other string is truthy. -/
def truthy : Option String → Bool
  | none => false
  | some s => !(s == "")

/-- The HTTP responses the handlers produce (status and payload). -/
inductive RResponse where
  | created (message : String) (reminder : RDoc)
  | updated (message : String) (reminder : RDoc)
  | deleted (message : String)
  | listed (userId : String) (reminders : List RDoc)
  | orgList (reminders : List RDoc)
  | error (status : Nat) (msg : String)
deriving Repr, DecidableEq

/-- Whether a response is a success (a non-`error` response). -/
def RResponse.isSuccess : RResponse → Bool
  | .error _ _ => false
  | _ => true

/-- The store's id generator: a fresh, non-empty document id per counter
value. -/
def genId (n : Nat) : String := "doc" ++ toString n

/-- `userName` resolution inside `logChange` (`src/server.js` lines
220-229): start from `'Unknown'`; if the directory lookup throws, keep it
(the inner catch); if the user document exists, use its `name` field with
fallback `'Unnamed User'` for a missing or blank name; if the document does
not exist, keep `'Unknown'`. -/
def lookupUserName (users : List UserDoc) (lookupFails : Bool)
    (userId : String) : String :=
  if lookupFails then "Unknown"
  else
    match users.find? (fun u => u.id == userId) with
    | some u =>
      match u.name with
      | some n => if n == "" then "Unnamed User" else n
      | none => "Unnamed User"
    | none => "Unknown"

/-- The log entry `logChange` constructs (`src/server.js` lines 231-240):
server timestamp, the action, `userId || 'unknown'`, the resolved user
name, entity, entity id, `entityName || 'N/A'`, and the details payload. -/
def mkLogEntry (st : FireState) (flags : FailFlags)
    (action userId entity entityId entityName : String)
    (details : LogDetails) : LogEntry :=
  { timestamp := st.now
    action := action
    userId := if userId == "" then "unknown" else userId
    userName := lookupUserName st.users flags.userLookupFails userId
    entity := entity
    entityId := entityId
    entityName := if entityName == "" then "N/A" else entityName
    details := details }

/-- `logChange` (`src/server.js` lines 218-246). Returns the new `logs`
collection and the store events issued. The outer `try/catch` swallows an
append failure, so the function is total: on `logAppendFails` the logs are
unchanged and no event is issued; otherwise exactly the one entry is
appended. -/
def logChange (flags : FailFlags) (st : FireState)
    (action userId entity entityId entityName : String)
    (details : LogDetails) : List LogEntry × List StoreEvent :=
  let entry := mkLogEntry st flags action userId entity entityId entityName details
  if flags.logAppendFails then (st.logs, [])
  else (st.logs ++ [entry], [.appendLog entry])

/-- The create request body `{userId, title, description?, datetime}`. -/
structure CreateReq where
  userId : Option String
  title : Option String
  description : Option String
  datetime : Option String
deriving Repr, DecidableEq

/-- `POST /reminders` (`src/server.js` lines 295-323): validate that
`userId`, `title`, `datetime` are truthy; build the record with
`description || ''`, `completed: false` and a server `createdAt`; add it to
the `reminders` collection under a fresh id; append one CREATE audit entry
via `logChange`; answer 201 with the new reminder. -/
def createReminder (flags : FailFlags) (st : FireState) (req : CreateReq) :
    RResponse × FireState × List StoreEvent :=
  if !(truthy req.userId) || !(truthy req.title) || !(truthy req.datetime) then
    (.error 400 "User ID, title, and datetime are required", st, [])
  else
    let userId := req.userId.getD ""
    let title := req.title.getD ""
    let reminderData : ReminderData :=
      { userId := userId
        title := title
        description := req.description.getD ""
        datetime := req.datetime.getD ""
        completed := false
        createdAt := st.now }
    let docId := genId st.nextId
    let st1 : FireState :=
      { st with
        reminders := st.reminders ++ [⟨docId, reminderData⟩]
        nextId := st.nextId + 1 }
    let (logs1, logEvs) :=
      logChange flags st1 "CREATE" userId "Reminder" docId title
        (.createData reminderData)
    (.created "Reminder created successfully" ⟨docId, reminderData⟩,
      { st1 with logs := logs1 },
      .addReminder docId reminderData :: logEvs)

example :
    (createReminder ⟨false, false⟩
        ⟨[], [], [], 0, 7⟩
        ⟨some "u1", some "Take aspirin", none, some "2024-01-01T08:00:00Z"⟩).1
      = .created "Reminder created successfully"
          ⟨"doc0", ⟨"u1", "Take aspirin", "", "2024-01-01T08:00:00Z", false, 7⟩⟩ := by
  decide

/-- The store's `orderBy('datetime', 'asc')` comparison on reminder
documents. -/
def dtLe (a b : RDoc) : Prop := a.data.datetime ≤ b.data.datetime

instance : DecidableRel dtLe := fun a b =>
  inferInstanceAs (Decidable (a.data.datetime ≤ b.data.datetime))

instance : IsTotal RDoc dtLe := ⟨fun a b => le_total a.data.datetime b.data.datetime⟩

instance : IsTrans RDoc dtLe := ⟨fun _ _ _ hab hbc => le_trans hab hbc⟩

/-- The store query `where('userId','==',userId).orderBy('datetime','asc')`
over the `reminders` collection: the documents whose data's `userId` equals
the filter value, in ascending `datetime` order. -/
def queryByUser (docs : List RDoc) (userId : String) : List RDoc :=
  List.insertionSort dtLe (docs.filter (fun d => d.data.userId == userId))

/-- `GET /reminders/:userId` (`src/server.js` lines 330-355): run the
by-user query; if the snapshot is empty answer `{userId, reminders: []}`,
otherwise answer `{userId, reminders}`. Reads issue no store writes. -/
def listByUser (st : FireState) (userId : String) :
    RResponse × FireState × List StoreEvent :=
  let snapshot := queryByUser st.reminders userId
  if snapshot.isEmpty then (.listed userId [], st, [])
  else (.listed userId snapshot, st, [])

/-- The store query `where('userId','in',ids).orderBy('datetime','asc')`.
An `in` filter with an empty id set is an error in the underlying store;
the model returns `none` there (the handler never reaches that branch). -/
def queryByUserIn (docs : List RDoc) (ids : List String) :
    Option (List RDoc) :=
  if ids.isEmpty then none
  else some (List.insertionSort dtLe
    (docs.filter (fun d => ids.contains d.data.userId)))

/-- `GET /api/reminders/all` (`src/server.js` lines 256-284): resolve the
users of the organization with role `'user'`; if none, answer `[]` without
querying `reminders`; otherwise query `reminders` with the membership
filter `patientIds.length > 0 ? patientIds : ['none']` and answer the
ordered result. The issued `in` query is recorded as a trace event. -/
def listAllByOrg (st : FireState) (organizationId : String) :
    RResponse × FireState × List StoreEvent :=
  let patients := st.users.filter
    (fun u => u.organizationId == organizationId && u.role == "user")
  if patients.isEmpty then (.orgList [], st, [])
  else
    let patientIds := patients.map (·.id)
    let filterIds := if patientIds.length > 0 then patientIds else ["none"]
    match queryByUserIn st.reminders filterIds with
    | some docs => (.orgList docs, st, [.queryRemindersIn filterIds])
    | none => (.error 500 "store error: empty in filter", st,
        [.queryRemindersIn filterIds])

/-- The update request: `reminderId` from the path, the rest from the body
(`none` = the key is absent from the body). -/
structure UpdateReq where
  reminderId : String
  userId : Option String
  title : Option String
  description : Option String
  datetime : Option String
  completed : Option Bool
deriving Repr, DecidableEq

/-- The `updates` object built by the Update handler (`src/server.js`
lines 385-389): `title` and `datetime` are included only when truthy
(`if (title)`, `if (datetime)`), `description` and `completed` whenever
defined (`!== undefined`). -/
def mkUpdates (req : UpdateReq) : UpdatePatch :=
  { title := if truthy req.title then req.title else none
    description := req.description
    datetime := if truthy req.datetime then req.datetime else none
    completed := req.completed }

/-- `PUT /reminders/:reminderId` (`src/server.js` lines 367-401): 400 when
`userId` is falsy; 404 `'Reminder not found or unauthorized'` when the
document does not exist or its stored `userId` differs; otherwise build
`updates`, issue the store update, append one UPDATE audit entry carrying
`{oldData, newData: updates}`, and answer the merged record
`{reminderId, ...oldData, ...updates}`. -/
def updateReminder (flags : FailFlags) (st : FireState) (req : UpdateReq) :
    RResponse × FireState × List StoreEvent :=
  if !(truthy req.userId) then (.error 400 "User ID is required", st, [])
  else
    let userId := req.userId.getD ""
    match st.reminders.find? (fun d => d.id == req.reminderId) with
    | none => (.error 404 "Reminder not found or unauthorized", st, [])
    | some doc =>
      if doc.data.userId ≠ userId then
        (.error 404 "Reminder not found or unauthorized", st, [])
      else
        let oldData := doc.data
        let updates := mkUpdates req
        let newData := applyPatch oldData updates
        let st1 : FireState :=
          { st with
            reminders := st.reminders.map
              (fun d => if d.id == req.reminderId then ⟨d.id, newData⟩ else d) }
        let entityName := if truthy req.title then req.title.getD "" else oldData.title
        let (logs1, logEvs) :=
          logChange flags st1 "UPDATE" userId "Reminder" req.reminderId entityName
            (.updateData oldData updates)
        (.updated "Reminder updated successfully" ⟨req.reminderId, newData⟩,
          { st1 with logs := logs1 },
          .updateReminder req.reminderId updates :: logEvs)

/-- `DELETE /reminders/:reminderId` (`src/server.js` lines 409-436): 400
when `userId` is falsy; 404 `'Reminder not found or unauthorized'` when the
document does not exist or its stored `userId` differs; otherwise append
one DELETE audit entry carrying the full pre-delete snapshot, and only then
remove the document. The trace records the append before the removal. -/
def deleteReminder (flags : FailFlags) (st : FireState)
    (reminderId : String) (userId : Option String) :
    RResponse × FireState × List StoreEvent :=
  if !(truthy userId) then (.error 400 "User ID is required", st, [])
  else
    let uid := userId.getD ""
    match st.reminders.find? (fun d => d.id == reminderId) with
    | none => (.error 404 "Reminder not found or unauthorized", st, [])
    | some doc =>
      if doc.data.userId ≠ uid then
        (.error 404 "Reminder not found or unauthorized", st, [])
      else
        let (logs1, logEvs) :=
          logChange flags st "DELETE" uid "Reminder" reminderId doc.data.title
            (.deleteData doc.data)
        (.deleted "Reminder deleted successfully",
          { st with
            logs := logs1
            reminders := st.reminders.filter (fun d => !(d.id == reminderId)) },
          logEvs ++ [.deleteReminder reminderId])

/-!
## The in-memory variant (`src/unnamed/part_000`)

State is the mock database `let reminders = {}`: a mapping from `userId` to
an array of reminder objects, modelled as an association list. A key, once
created, always maps to an array, and a JS array is truthy even when empty,
so the guard `!reminders[userId]` tests key presence only.
-/

/-- A reminder object of the in-memory variant (`part_000` line 21):
`description` is stored as supplied, possibly `undefined`. -/
structure MemReminder where
  reminderId : String
  userId : String
  title : String
  description : Option String
  datetime : String
  completed : Bool
deriving Repr, DecidableEq

/-- The mock database: `userId` keys mapped to arrays of reminders. -/
def MemState := List (String × List MemReminder)
deriving Repr, DecidableEq

/-- `reminders[userId]` as a read: the array under the key, if present. -/
def memLookup (st : MemState) (uid : String) : Option (List MemReminder) :=
  (List.find? (fun p => p.1 == uid) st).map (·.2)

/-- `reminders[userId] = v` on a present key: replace the array under the
key, keeping the key present. -/
def memSet (st : MemState) (uid : String) (v : List MemReminder) : MemState :=
  List.map (fun p => if p.1 == uid then (uid, v) else p) st

/-- The responses of the in-memory variant's handlers. -/
inductive MemResponse where
  | ok (message : String)
  | error (status : Nat) (msg : String)
deriving Repr, DecidableEq

/-- `DELETE /reminders/:reminderId`, in-memory variant (`part_000` lines
65-76): 404 `'User not found'` when `userId` is falsy or has no entry;
otherwise filter the user's array by `reminderId` and answer success —
whether or not any element matched. -/
def memDelete (st : MemState) (reminderId : String) (userId : Option String) :
    MemResponse × MemState :=
  let uid := userId.getD ""
  if !(truthy userId) then (.error 404 "User not found", st)
  else
    match memLookup st uid with
    | none => (.error 404 "User not found", st)
    | some arr =>
      (.ok "Reminder deleted successfully",
        memSet st uid (arr.filter (fun r => !(r.reminderId == reminderId))))

example :
    (memDelete [("u1", [⟨"r1", "u1", "t", none, "d", false⟩])] "zzz" (some "u1")).1
      = .ok "Reminder deleted successfully" := by decide

example :
    (memDelete [("u1", [])] "r1" (some "u2")).1 = .error 404 "User not found" := by
  decide

/-!
## Helper lemmas
-/

/-- A generated document id is never the empty string. -/
theorem genId_ne_empty (n : Nat) : genId n ≠ "" := by
  intro h
  have hlen : (genId n).length = 0 := by rw [h]; rfl
  rw [genId] at hlen
  simp [String.length_append] at hlen
  exact absurd hlen.1 (by decide)

/-- The empty patch merges to the unchanged record. -/
theorem applyPatch_emptyPatch (d : ReminderData) :
    applyPatch d UpdatePatch.emptyPatch = d := rfl

/-- An absent field is falsy. -/
theorem truthy_none : truthy none = false := rfl

/-!
## Claims
-/

/-- C5: Create with any of `userId`, `title`, `datetime` absent or empty
(falsy) answers the 400 validation error, leaves the store state unchanged
and issues no store write at all (in particular no reminder is persisted
and no audit entry is appended). -/
theorem create_invalid_input_no_write (flags : FailFlags) (st : FireState)
    (req : CreateReq)
    (h : truthy req.userId = false ∨ truthy req.title = false ∨
      truthy req.datetime = false) :
    createReminder flags st req
      = (.error 400 "User ID, title, and datetime are required", st, []) := by
  rcases h with h | h | h <;> simp [createReminder, h]

/-- Witness for C5: a concrete request with an empty title is rejected with
no store write. -/
theorem create_invalid_input_no_write_witness :
    createReminder ⟨false, false⟩ ⟨[], [], [], 0, 7⟩
        ⟨some "u1", some "", none, some "2024-01-01"⟩
      = (.error 400 "User ID, title, and datetime are required",
          ⟨[], [], [], 0, 7⟩, []) :=
  create_invalid_input_no_write ⟨false, false⟩ ⟨[], [], [], 0, 7⟩
    ⟨some "u1", some "", none, some "2024-01-01"⟩ (Or.inr (Or.inl (by decide)))

/-- C4: Create with truthy `userId`, `title` and `datetime` succeeds (201)
and the returned reminder has `completed = false`, the freshly generated
non-empty `reminderId`, and `description` equal to the supplied value, or
`""` when the field was omitted. -/
theorem create_valid_success (flags : FailFlags) (st : FireState)
    (req : CreateReq) (hu : truthy req.userId = true)
    (ht : truthy req.title = true) (hd : truthy req.datetime = true) :
    ∃ d : RDoc,
      (createReminder flags st req).1
          = .created "Reminder created successfully" d ∧
      d.data.completed = false ∧
      d.id = genId st.nextId ∧ d.id ≠ "" ∧
      (req.description = none → d.data.description = "") ∧
      (∀ s, req.description = some s → d.data.description = s) := by
  refine ⟨⟨genId st.nextId,
    ⟨req.userId.getD "", req.title.getD "", req.description.getD "",
      req.datetime.getD "", false, st.now⟩⟩, ?_, rfl, rfl, genId_ne_empty _, ?_, ?_⟩
  · simp [createReminder, hu, ht, hd]
  · intro h; simp [h]
  · intro s h; simp [h]

/-- Witness for C4: creating with a concrete valid request and omitted
description. -/
theorem create_valid_success_witness :
    ∃ d : RDoc,
      (createReminder ⟨false, false⟩ ⟨[], [], [], 0, 7⟩
          ⟨some "u1", some "Take aspirin", none, some "2024-01-01T08:00:00Z"⟩).1
          = .created "Reminder created successfully" d ∧
      d.data.completed = false ∧
      d.id = genId 0 ∧ d.id ≠ "" ∧
      ((none : Option String) = none → d.data.description = "") ∧
      (∀ s, (none : Option String) = some s → d.data.description = s) :=
  create_valid_success ⟨false, false⟩ ⟨[], [], [], 0, 7⟩
    ⟨some "u1", some "Take aspirin", none, some "2024-01-01T08:00:00Z"⟩
    (by decide) (by decide) (by decide)

/-- C2: Update and Delete with a truthy `userId`, on a `reminderId` that
either does not exist or exists with a different stored owner, both answer
the one fixed outcome `404 'Reminder not found or unauthorized'` — the same
status and message in both cases — and leave the state unchanged with no
store write. The hypothesis `h` states exactly the disjunction: every found
document (if any) has a different owner. -/
theorem update_delete_notfound_unauthorized (flags : FailFlags)
    (st : FireState) (req : UpdateReq) (hu : truthy req.userId = true)
    (h : ∀ doc, List.find? (fun d => d.id == req.reminderId) st.reminders
        = some doc → doc.data.userId ≠ req.userId.getD "") :
    updateReminder flags st req
        = (.error 404 "Reminder not found or unauthorized", st, []) ∧
    deleteReminder flags st req.reminderId req.userId
        = (.error 404 "Reminder not found or unauthorized", st, []) := by
  constructor
  · rw [updateReminder]
    simp only [hu, Bool.not_true, Bool.false_eq_true, if_false]
    cases hfind : List.find? (fun d => d.id == req.reminderId) st.reminders with
    | none => simp
    | some doc => simp [h doc hfind]
  · rw [deleteReminder]
    simp only [hu, Bool.not_true, Bool.false_eq_true, if_false]
    cases hfind : List.find? (fun d => d.id == req.reminderId) st.reminders with
    | none => simp
    | some doc => simp [h doc hfind]

/-- Witness for C2: a store holding one reminder owned by `u1`; an update
and a delete by `u2` on that id, and on a missing id, both hit the single
404 outcome (instantiated here at the existing-but-foreign-owner case). -/
theorem update_delete_notfound_unauthorized_witness :
    updateReminder ⟨false, false⟩
        ⟨[⟨"doc0", ⟨"u1", "t", "", "2024", false, 7⟩⟩], [], [], 1, 9⟩
        ⟨"doc0", some "u2", none, none, none, none⟩
        = (.error 404 "Reminder not found or unauthorized",
            ⟨[⟨"doc0", ⟨"u1", "t", "", "2024", false, 7⟩⟩], [], [], 1, 9⟩, []) ∧
    deleteReminder ⟨false, false⟩
        ⟨[⟨"doc0", ⟨"u1", "t", "", "2024", false, 7⟩⟩], [], [], 1, 9⟩
        "doc0" (some "u2")
        = (.error 404 "Reminder not found or unauthorized",
            ⟨[⟨"doc0", ⟨"u1", "t", "", "2024", false, 7⟩⟩], [], [], 1, 9⟩, []) :=
  update_delete_notfound_unauthorized ⟨false, false⟩
    ⟨[⟨"doc0", ⟨"u1", "t", "", "2024", false, 7⟩⟩], [], [], 1, 9⟩
    ⟨"doc0", some "u2", none, none, none, none⟩ (by decide) (by decide)

/-- C3: an authorized Update on an existing reminder answers the pre-update
record merged with the applied patch, where the patch keeps exactly the
supplied fields under the source's rules: omitted fields change nothing;
`title` and `datetime` apply only when truthy, so a supplied empty string
is silently dropped; `description` and `completed` apply whenever present,
including `description = ""` and `completed = false`. -/
theorem update_authorized_patch_semantics (flags : FailFlags)
    (st : FireState) (req : UpdateReq) (doc : RDoc)
    (hu : truthy req.userId = true)
    (hfind : List.find? (fun d => d.id == req.reminderId) st.reminders
      = some doc)
    (hauth : doc.data.userId = req.userId.getD "") :
    (updateReminder flags st req).1
        = .updated "Reminder updated successfully"
            ⟨req.reminderId, applyPatch doc.data (mkUpdates req)⟩ ∧
    (req.title = none →
      (applyPatch doc.data (mkUpdates req)).title = doc.data.title) ∧
    (req.title = some "" →
      (applyPatch doc.data (mkUpdates req)).title = doc.data.title) ∧
    (∀ s, req.title = some s → s ≠ "" →
      (applyPatch doc.data (mkUpdates req)).title = s) ∧
    (req.datetime = none →
      (applyPatch doc.data (mkUpdates req)).datetime = doc.data.datetime) ∧
    (req.datetime = some "" →
      (applyPatch doc.data (mkUpdates req)).datetime = doc.data.datetime) ∧
    (∀ s, req.datetime = some s → s ≠ "" →
      (applyPatch doc.data (mkUpdates req)).datetime = s) ∧
    (req.description = none →
      (applyPatch doc.data (mkUpdates req)).description
        = doc.data.description) ∧
    (∀ s, req.description = some s →
      (applyPatch doc.data (mkUpdates req)).description = s) ∧
    (req.completed = none →
      (applyPatch doc.data (mkUpdates req)).completed = doc.data.completed) ∧
    (∀ b, req.completed = some b →
      (applyPatch doc.data (mkUpdates req)).completed = b) := by
  refine ⟨?_, ?_, ?_, ?_, ?_, ?_, ?_, ?_, ?_, ?_, ?_⟩
  · rw [updateReminder]
    simp only [hu, Bool.not_true, Bool.false_eq_true, if_false, hfind, hauth,
      ne_eq, not_true_eq_false, if_false]
  · intro h; simp [applyPatch, mkUpdates, h, truthy]
  · intro h; simp [applyPatch, mkUpdates, h, truthy]
  · intro s h hs; simp [applyPatch, mkUpdates, h, truthy, hs]
  · intro h; simp [applyPatch, mkUpdates, h, truthy]
  · intro h; simp [applyPatch, mkUpdates, h, truthy]
  · intro s h hs; simp [applyPatch, mkUpdates, h, truthy, hs]
  · intro h; simp [applyPatch, mkUpdates, h]
  · intro s h; simp [applyPatch, mkUpdates, h]
  · intro h; simp [applyPatch, mkUpdates, h]
  · intro b h; simp [applyPatch, mkUpdates, h]

/-- Witness for C3: an authorized update supplying `title = ""` (dropped),
`description = ""` (applied) and `completed = false` (applied). -/
theorem update_authorized_patch_semantics_witness :
    (updateReminder ⟨false, false⟩
        ⟨[⟨"doc0", ⟨"u1", "t", "old", "2024", true, 7⟩⟩], [], [], 1, 9⟩
        ⟨"doc0", some "u1", some "", some "", none, some false⟩).1
        = .updated "Reminder updated successfully"
            ⟨"doc0", applyPatch ⟨"u1", "t", "old", "2024", true, 7⟩
              (mkUpdates ⟨"doc0", some "u1", some "", some "", none, some false⟩)⟩ ∧
    applyPatch ⟨"u1", "t", "old", "2024", true, 7⟩
        (mkUpdates ⟨"doc0", some "u1", some "", some "", none, some false⟩)
      = ⟨"u1", "t", "", "2024", false, 7⟩ :=
  ⟨(update_authorized_patch_semantics ⟨false, false⟩
      ⟨[⟨"doc0", ⟨"u1", "t", "old", "2024", true, 7⟩⟩], [], [], 1, 9⟩
      ⟨"doc0", some "u1", some "", some "", none, some false⟩
      ⟨"doc0", ⟨"u1", "t", "old", "2024", true, 7⟩⟩
      (by decide) (by decide) (by decide)).1, by decide⟩

/-- Both branches of the list handler answer the by-user query result. -/
theorem listByUser_eq (st : FireState) (userId : String) :
    listByUser st userId
      = (.listed userId (queryByUser st.reminders userId), st, []) := by
  rw [listByUser]
  cases hemp : (queryByUser st.reminders userId).isEmpty
  · simp [hemp]
  · simp [hemp, List.isEmpty_iff.mp hemp]

/-- C6: ListByUser answers the successful `{userId, reminders}` response
for every user, where the returned list holds exactly the stored reminders
owned by that user (a permutation of the ownership filter), sorted
non-decreasing by `datetime`; a user owning zero reminders (or unknown)
gets `{userId, reminders: []}` rather than an error. The read mutates
nothing and issues no store write. -/
theorem listByUser_exact_sorted (st : FireState) (userId : String) :
    ∃ L, listByUser st userId = (.listed userId L, st, []) ∧
      (∀ d ∈ L, d.data.userId = userId) ∧
      List.Sorted dtLe L ∧
      L.Perm (st.reminders.filter (fun d => d.data.userId == userId)) ∧
      (st.reminders.filter (fun d => d.data.userId == userId) = [] →
        L = []) := by
  refine ⟨queryByUser st.reminders userId, listByUser_eq st userId, ?_, ?_, ?_, ?_⟩
  · intro d hd
    have hmem : d ∈ st.reminders.filter (fun d => d.data.userId == userId) :=
      (List.perm_insertionSort dtLe _).mem_iff.mp hd
    simpa using (List.mem_filter.mp hmem).2
  · exact List.sorted_insertionSort dtLe _
  · exact List.perm_insertionSort dtLe _
  · intro h
    rw [queryByUser, h]
    rfl

/-- A concrete store fixture with reminders of two users, datetimes out of
order. -/
def fixtureListState : FireState :=
  ⟨[⟨"a", ⟨"u1", "t1", "", "2025", false, 1⟩⟩,
    ⟨"b", ⟨"u2", "t2", "", "2023", false, 2⟩⟩,
    ⟨"c", ⟨"u1", "t3", "", "2024", false, 3⟩⟩], [], [], 3, 9⟩

/-- Witness for C6 (closed instance): a concrete two-user store lists
exactly `u1`'s reminders in datetime order. -/
theorem listByUser_exact_sorted_witness :
    ∃ L : List RDoc,
      listByUser fixtureListState "u1" = (.listed "u1" L, fixtureListState, []) ∧
      (∀ d ∈ L, d.data.userId = "u1") ∧
      List.Sorted dtLe L ∧
      L.Perm (fixtureListState.reminders.filter (fun d => d.data.userId == "u1")) ∧
      (fixtureListState.reminders.filter (fun d => d.data.userId == "u1") = [] →
        L = []) :=
  listByUser_exact_sorted fixtureListState "u1"

/-- C7: ListByOrganization with zero resolved users of role `'user'` in the
organization answers `[]` without issuing any reminder query; and every
membership (`in`) filter the handler ever issues is non-empty, so the
store's empty-filter error branch (`queryByUserIn _ [] = none`) is never
reached: the handler always answers an `orgList`, never the store error. -/
theorem listAllByOrg_empty_safe (st : FireState) (organizationId : String) :
    (st.users.filter
        (fun u => u.organizationId == organizationId && u.role == "user") = [] →
      listAllByOrg st organizationId = (.orgList [], st, [])) ∧
    (∀ ids, .queryRemindersIn ids ∈ (listAllByOrg st organizationId).2.2 →
      ids ≠ []) ∧
    (∃ L, (listAllByOrg st organizationId).1 = .orgList L) := by
  cases hemp : st.users.filter
      (fun u => u.organizationId == organizationId && u.role == "user") with
  | nil =>
    have hrun : listAllByOrg st organizationId = (.orgList [], st, []) := by
      simp [listAllByOrg, hemp]
    refine ⟨fun _ => hrun, ?_, ⟨[], by rw [hrun]⟩⟩
    intro ids hmem
    rw [hrun] at hmem
    simp at hmem
  | cons p ps =>
    have hrun : listAllByOrg st organizationId
        = (.orgList (List.insertionSort dtLe (st.reminders.filter
            (fun d => (p.id :: ps.map (fun u => u.id)).contains d.data.userId))),
           st, [.queryRemindersIn (p.id :: ps.map (fun u => u.id))]) := by
      simp [listAllByOrg, hemp, queryByUserIn]
    refine ⟨fun h => absurd h (List.cons_ne_nil p ps), ?_, ⟨_, by rw [hrun]⟩⟩
    intro ids hmem
    rw [hrun] at hmem
    simp only [List.mem_singleton, StoreEvent.queryRemindersIn.injEq] at hmem
    rw [hmem]
    exact List.cons_ne_nil _ _

/-- Reading a key after writing it: `memSet` keeps the key present with the
new array. -/
theorem memLookup_memSet (st : MemState) (uid : String)
    (v arr : List MemReminder) (h : memLookup st uid = some arr) :
    memLookup (memSet st uid v) uid = some v := by
  induction st with
  | nil => simp [memLookup] at h
  | cons p st ih =>
    by_cases hp : p.1 == uid
    · simp [memLookup, memSet, List.find?, hp]
    · have h' : memLookup st uid = some arr := by
        simpa [memLookup, List.find?, hp] using h
      have ih' := ih h'
      simpa [memLookup, memSet, List.find?, hp] using ih'

/-- Overwriting a key twice is the same as writing it once with the second
value. -/
theorem memSet_memSet (st : MemState) (uid : String)
    (v w : List MemReminder) :
    memSet (memSet st uid v) uid w = memSet st uid w := by
  unfold memSet
  rw [List.map_map]
  apply List.map_congr_left
  intro q _
  by_cases hq : q.1 == uid
  · simp [Function.comp, hq]
  · simp [Function.comp, hq]

/-- C9: in the in-memory variant, Delete with a truthy `userId` whose key
is present in the mock database answers success whether or not any stored
reminder has the given `reminderId` (the filter simply removes nothing),
and Delete is idempotent: a second identical Delete answers success again
and leaves the store exactly as after the first. -/
theorem memDelete_success_idempotent (st : MemState) (reminderId uid : String)
    (arr : List MemReminder) (hu : truthy (some uid) = true)
    (hl : memLookup st uid = some arr) :
    (memDelete st reminderId (some uid)).1 = .ok "Reminder deleted successfully" ∧
    (memDelete (memDelete st reminderId (some uid)).2 reminderId (some uid)).1
      = .ok "Reminder deleted successfully" ∧
    (memDelete (memDelete st reminderId (some uid)).2 reminderId (some uid)).2
      = (memDelete st reminderId (some uid)).2 := by
  have hrun1 : memDelete st reminderId (some uid)
      = (.ok "Reminder deleted successfully",
          memSet st uid (arr.filter (fun r => !(r.reminderId == reminderId)))) := by
    rw [memDelete]
    simp only [hu, Bool.not_true, Bool.false_eq_true, if_false, Option.getD_some, hl]
  have hl2 : memLookup (memDelete st reminderId (some uid)).2 uid
      = some (arr.filter (fun r => !(r.reminderId == reminderId))) := by
    rw [hrun1]
    exact memLookup_memSet st uid _ arr hl
  have hrun2 : memDelete (memDelete st reminderId (some uid)).2 reminderId (some uid)
      = (.ok "Reminder deleted successfully",
          memSet (memDelete st reminderId (some uid)).2 uid
            ((arr.filter (fun r => !(r.reminderId == reminderId))).filter
              (fun r => !(r.reminderId == reminderId)))) := by
    rw [memDelete]
    simp only [hu, Bool.not_true, Bool.false_eq_true, if_false, Option.getD_some, hl2]
  refine ⟨by rw [hrun1], by rw [hrun2], ?_⟩
  rw [hrun2, hrun1]
  show memSet (memSet st uid (arr.filter (fun r => !(r.reminderId == reminderId))))
      uid ((arr.filter (fun r => !(r.reminderId == reminderId))).filter
        (fun r => !(r.reminderId == reminderId)))
    = memSet st uid (arr.filter (fun r => !(r.reminderId == reminderId)))
  rw [memSet_memSet]
  congr 1
  simp [List.filter_filter]

/-- Witness for C9: a store where `u1` owns one reminder `r1`; deleting the
missing id `zzz` succeeds, and doing it twice equals doing it once. -/
theorem memDelete_success_idempotent_witness :
    (memDelete [("u1", [⟨"r1", "u1", "t", none, "2024", false⟩])] "zzz"
        (some "u1")).1 = .ok "Reminder deleted successfully" ∧
    (memDelete (memDelete [("u1", [⟨"r1", "u1", "t", none, "2024", false⟩])]
        "zzz" (some "u1")).2 "zzz" (some "u1")).1
      = .ok "Reminder deleted successfully" ∧
    (memDelete (memDelete [("u1", [⟨"r1", "u1", "t", none, "2024", false⟩])]
        "zzz" (some "u1")).2 "zzz" (some "u1")).2
      = (memDelete [("u1", [⟨"r1", "u1", "t", none, "2024", false⟩])] "zzz"
          (some "u1")).2 :=
  memDelete_success_idempotent
    [("u1", [⟨"r1", "u1", "t", none, "2024", false⟩])] "zzz" "u1"
    [⟨"r1", "u1", "t", none, "2024", false⟩] (by decide) (by decide)

/-- C10: in the Firebase variant, an authorized Update supplying none of
`title`, `description`, `datetime`, `completed` still issues the store
update with the empty patch `{}`, still appends one UPDATE audit entry
whose applied delta is the empty patch, and answers the stored record
unchanged. -/
theorem update_empty_patch_still_logs (flags : FailFlags) (st : FireState)
    (req : UpdateReq) (doc : RDoc) (hu : truthy req.userId = true)
    (hfind : List.find? (fun d => d.id == req.reminderId) st.reminders
      = some doc)
    (hauth : doc.data.userId = req.userId.getD "")
    (hfl : flags.logAppendFails = false)
    (ht : req.title = none) (hde : req.description = none)
    (hdt : req.datetime = none) (hc : req.completed = none) :
    ∃ e : LogEntry,
      (updateReminder flags st req).1
          = .updated "Reminder updated successfully" ⟨req.reminderId, doc.data⟩ ∧
      (updateReminder flags st req).2.2
          = [.updateReminder req.reminderId UpdatePatch.emptyPatch, .appendLog e] ∧
      (updateReminder flags st req).2.1.logs = st.logs ++ [e] ∧
      e.action = "UPDATE" ∧
      e.details = .updateData doc.data UpdatePatch.emptyPatch := by
  have hpatch : mkUpdates req = UpdatePatch.emptyPatch := by
    simp [mkUpdates, UpdatePatch.emptyPatch, ht, hde, hdt, hc, truthy]
  refine ⟨mkLogEntry
      (FireState.mk
        (st.reminders.map
          (fun d => if d.id == req.reminderId then ⟨d.id, doc.data⟩ else d))
        st.logs st.users st.nextId st.now)
      flags "UPDATE" (req.userId.getD "") "Reminder" req.reminderId
      doc.data.title (.updateData doc.data UpdatePatch.emptyPatch),
    ?_, ?_, ?_, rfl, rfl⟩ <;>
  · rw [updateReminder]
    simp only [hu, Bool.not_true, Bool.false_eq_true, if_false, hfind, hauth,
      ne_eq, not_true_eq_false, hpatch, applyPatch_emptyPatch, ht, truthy_none,
      logChange, hfl]

/-- Witness for C10: an authorized all-fields-omitted update on a
one-record store. -/
theorem update_empty_patch_still_logs_witness :
    ∃ e : LogEntry,
      (updateReminder ⟨false, false⟩
          ⟨[⟨"doc0", ⟨"u1", "t", "", "2024", false, 7⟩⟩], [], [], 1, 9⟩
          ⟨"doc0", some "u1", none, none, none, none⟩).1
          = .updated "Reminder updated successfully"
              ⟨"doc0", ⟨"u1", "t", "", "2024", false, 7⟩⟩ ∧
      (updateReminder ⟨false, false⟩
          ⟨[⟨"doc0", ⟨"u1", "t", "", "2024", false, 7⟩⟩], [], [], 1, 9⟩
          ⟨"doc0", some "u1", none, none, none, none⟩).2.2
          = [.updateReminder "doc0" UpdatePatch.emptyPatch, .appendLog e] ∧
      (updateReminder ⟨false, false⟩
          ⟨[⟨"doc0", ⟨"u1", "t", "", "2024", false, 7⟩⟩], [], [], 1, 9⟩
          ⟨"doc0", some "u1", none, none, none, none⟩).2.1.logs = [] ++ [e] ∧
      e.action = "UPDATE" ∧
      e.details = .updateData ⟨"u1", "t", "", "2024", false, 7⟩
        UpdatePatch.emptyPatch :=
  update_empty_patch_still_logs ⟨false, false⟩
    ⟨[⟨"doc0", ⟨"u1", "t", "", "2024", false, 7⟩⟩], [], [], 1, 9⟩
    ⟨"doc0", some "u1", none, none, none, none⟩
    ⟨"doc0", ⟨"u1", "t", "", "2024", false, 7⟩⟩
    (by decide) (by decide) (by decide) rfl rfl rfl rfl rfl

/-- C8: audit failures are isolated. First, when the user-directory lookup
fails, `logChange` still appends exactly one entry, with
`userName = "Unknown"` — whatever the directory holds. Second, for any
failure behaviour of the audit collaborators (in particular a failing log
append), a valid Create still answers 201 with its reminder, an authorized
Update still answers the merged record, and an authorized Delete still
answers success: `logChange` never propagates an error to its caller. -/
theorem logging_failures_isolated (st : FireState)
    (action uid ent eid ename : String) (det : LogDetails)
    (flags : FailFlags) (creq : CreateReq)
    (hcu : truthy creq.userId = true) (hct : truthy creq.title = true)
    (hcd : truthy creq.datetime = true) :
    (∃ e, logChange ⟨true, false⟩ st action uid ent eid ename det
        = (st.logs ++ [e], [.appendLog e]) ∧ e.userName = "Unknown") ∧
    (∃ d, (createReminder flags st creq).1
        = .created "Reminder created successfully" d) ∧
    (∀ req doc, truthy req.userId = true →
      List.find? (fun d => d.id == req.reminderId) st.reminders = some doc →
      doc.data.userId = req.userId.getD "" →
      (updateReminder flags st req).1
        = .updated "Reminder updated successfully"
            ⟨req.reminderId, applyPatch doc.data (mkUpdates req)⟩) ∧
    (∀ rid u doc, truthy u = true →
      List.find? (fun d => d.id == rid) st.reminders = some doc →
      doc.data.userId = u.getD "" →
      (deleteReminder flags st rid u).1
        = .deleted "Reminder deleted successfully") := by
  refine ⟨⟨mkLogEntry st ⟨true, false⟩ action uid ent eid ename det, rfl, rfl⟩,
    ⟨⟨genId st.nextId,
      ⟨creq.userId.getD "", creq.title.getD "", creq.description.getD "",
        creq.datetime.getD "", false, st.now⟩⟩, ?_⟩, ?_, ?_⟩
  · simp [createReminder, hcu, hct, hcd]
  · intro req doc hu hfind hauth
    rw [updateReminder]
    simp only [hu, Bool.not_true, Bool.false_eq_true, if_false, hfind, hauth,
      ne_eq, not_true_eq_false]
  · intro rid u doc hu hfind hauth
    rw [deleteReminder]
    simp only [hu, Bool.not_true, Bool.false_eq_true, if_false, hfind, hauth,
      ne_eq, not_true_eq_false]

/-- A concrete fixture for the audit-isolation witness: one stored reminder
of `u1` and a user directory holding `u1` with the name `Alice`. -/
def fixtureLogState : FireState :=
  ⟨[⟨"doc0", ⟨"u1", "t", "", "2024", false, 7⟩⟩], [],
    [⟨"u1", some "Alice", "user", "org1"⟩], 1, 9⟩

/-- Witness for C8: a directory containing `u1` with a name, yet a failing
lookup logs `"Unknown"`; and with a failing append, a valid Create, an
authorized Update and an authorized Delete all still succeed. -/
theorem logging_failures_isolated_witness :
    (∃ e, logChange ⟨true, false⟩ fixtureLogState
        "CREATE" "u1" "Reminder" "doc0" "t"
        (.createData ⟨"u1", "t", "", "2024", false, 7⟩)
        = (fixtureLogState.logs ++ [e], [.appendLog e]) ∧
      e.userName = "Unknown") ∧
    (∃ d, (createReminder ⟨true, true⟩ fixtureLogState
        ⟨some "u1", some "t2", none, some "2025"⟩).1
        = .created "Reminder created successfully" d) ∧
    (∀ (req : UpdateReq) (doc : RDoc), truthy req.userId = true →
      List.find? (fun d => d.id == req.reminderId) fixtureLogState.reminders
        = some doc →
      doc.data.userId = req.userId.getD "" →
      (updateReminder ⟨true, true⟩ fixtureLogState req).1
        = .updated "Reminder updated successfully"
            ⟨req.reminderId, applyPatch doc.data (mkUpdates req)⟩) ∧
    (∀ (rid : String) (u : Option String) (doc : RDoc), truthy u = true →
      List.find? (fun d => d.id == rid) fixtureLogState.reminders = some doc →
      doc.data.userId = u.getD "" →
      (deleteReminder ⟨true, true⟩ fixtureLogState rid u).1
        = .deleted "Reminder deleted successfully") :=
  logging_failures_isolated fixtureLogState
    "CREATE" "u1" "Reminder" "doc0" "t"
    (.createData ⟨"u1", "t", "", "2024", false, 7⟩) ⟨true, true⟩
    ⟨some "u1", some "t2", none, some "2025"⟩
    (by decide) (by decide) (by decide)

/-- C1: with a working log store, every successful Create, Update and
Delete appends exactly one new audit entry — the new `logs` collection is
the old one plus a single entry — whose `action` is `CREATE`, `UPDATE` or
`DELETE` respectively and whose `entityId` is the affected reminder's id;
and the successful Delete issues the DELETE append before the removal (its
store-event trace is exactly the append followed by the delete). -/
theorem every_mutation_logged_once (flags : FailFlags) (st : FireState)
    (creq : CreateReq) (ureq : UpdateReq) (rid : String) (u : Option String)
    (hfl : flags.logAppendFails = false) :
    ((createReminder flags st creq).1.isSuccess = true →
      ∃ e d, (createReminder flags st creq).1
          = .created "Reminder created successfully" d ∧
        (createReminder flags st creq).2.1.logs = st.logs ++ [e] ∧
        e.action = "CREATE" ∧ e.entityId = d.id) ∧
    ((updateReminder flags st ureq).1.isSuccess = true →
      ∃ e d, (updateReminder flags st ureq).1
          = .updated "Reminder updated successfully" d ∧
        d.id = ureq.reminderId ∧
        (updateReminder flags st ureq).2.1.logs = st.logs ++ [e] ∧
        e.action = "UPDATE" ∧ e.entityId = ureq.reminderId) ∧
    ((deleteReminder flags st rid u).1.isSuccess = true →
      ∃ e, (deleteReminder flags st rid u).2.1.logs = st.logs ++ [e] ∧
        e.action = "DELETE" ∧ e.entityId = rid ∧
        (deleteReminder flags st rid u).2.2
          = [.appendLog e, .deleteReminder rid]) := by
  refine ⟨?_, ?_, ?_⟩
  · intro hs
    cases hcu : truthy creq.userId with
    | false =>
      rw [createReminder] at hs
      simp [hcu, RResponse.isSuccess] at hs
    | true =>
    cases hct : truthy creq.title with
    | false =>
      rw [createReminder] at hs
      simp [hct, RResponse.isSuccess] at hs
    | true =>
    cases hcd : truthy creq.datetime with
    | false =>
      rw [createReminder] at hs
      simp [hcd, RResponse.isSuccess] at hs
    | true =>
      refine ⟨mkLogEntry
          (FireState.mk
            (st.reminders ++ [⟨genId st.nextId,
              ⟨creq.userId.getD "", creq.title.getD "", creq.description.getD "",
                creq.datetime.getD "", false, st.now⟩⟩])
            st.logs st.users (st.nextId + 1) st.now)
          flags "CREATE" (creq.userId.getD "") "Reminder" (genId st.nextId)
          (creq.title.getD "")
          (.createData ⟨creq.userId.getD "", creq.title.getD "",
            creq.description.getD "", creq.datetime.getD "", false, st.now⟩),
        ⟨genId st.nextId,
          ⟨creq.userId.getD "", creq.title.getD "", creq.description.getD "",
            creq.datetime.getD "", false, st.now⟩⟩, ?_, ?_, rfl, rfl⟩ <;>
      · rw [createReminder]
        simp only [hcu, hct, hcd, Bool.not_true, Bool.or_self, Bool.or_false,
          Bool.false_or, Bool.false_eq_true, if_false, logChange, hfl]
  · intro hs
    cases hvu : truthy ureq.userId with
    | false =>
      rw [updateReminder] at hs
      simp [hvu, RResponse.isSuccess] at hs
    | true =>
    cases hfind : List.find? (fun d => d.id == ureq.reminderId) st.reminders with
    | none =>
      rw [updateReminder] at hs
      simp [hvu, hfind, RResponse.isSuccess] at hs
    | some doc =>
      by_cases hown : doc.data.userId = ureq.userId.getD ""
      · refine ⟨mkLogEntry
            (FireState.mk
              (st.reminders.map (fun d => if d.id == ureq.reminderId then
                ⟨d.id, applyPatch doc.data (mkUpdates ureq)⟩ else d))
              st.logs st.users st.nextId st.now)
            flags "UPDATE" (ureq.userId.getD "") "Reminder" ureq.reminderId
            (if truthy ureq.title then ureq.title.getD "" else doc.data.title)
            (.updateData doc.data (mkUpdates ureq)),
          ⟨ureq.reminderId, applyPatch doc.data (mkUpdates ureq)⟩,
          ?_, rfl, ?_, rfl, rfl⟩ <;>
        · rw [updateReminder]
          simp only [hvu, Bool.not_true, Bool.false_eq_true, if_false, hfind,
            hown, ne_eq, not_true_eq_false, logChange, hfl]
      · rw [updateReminder] at hs
        simp [hvu, hfind, hown, RResponse.isSuccess] at hs
  · intro hs
    cases hvu : truthy u with
    | false =>
      rw [deleteReminder] at hs
      simp [hvu, RResponse.isSuccess] at hs
    | true =>
    cases hfind : List.find? (fun d => d.id == rid) st.reminders with
    | none =>
      rw [deleteReminder] at hs
      simp [hvu, hfind, RResponse.isSuccess] at hs
    | some doc =>
      by_cases hown : doc.data.userId = u.getD ""
      · refine ⟨mkLogEntry st flags "DELETE" (u.getD "") "Reminder" rid
            doc.data.title (.deleteData doc.data), ?_, rfl, rfl, ?_⟩ <;>
        · rw [deleteReminder]
          simp only [hvu, Bool.not_true, Bool.false_eq_true, if_false, hfind,
            hown, ne_eq, not_true_eq_false, logChange, hfl]
          try rfl
      · rw [deleteReminder] at hs
        simp [hvu, hfind, hown, RResponse.isSuccess] at hs

/-- A concrete store fixture for the C1 witness: two reminders of `u1`. -/
def fixtureAuditState : FireState :=
  ⟨[⟨"doc0", ⟨"u1", "t0", "", "2024", false, 7⟩⟩,
    ⟨"doc1", ⟨"u1", "t1", "", "2025", false, 7⟩⟩], [], [], 2, 9⟩

/-- Witness for C1: on the fixture, a valid Create, an authorized Update of
`doc0` and an authorized Delete of `doc1` each append their one entry; the
Delete trace is the append followed by the removal. -/
theorem every_mutation_logged_once_witness :
    ((createReminder ⟨false, false⟩ fixtureAuditState
        ⟨some "u1", some "t2", none, some "2026"⟩).1.isSuccess = true →
      ∃ e d, (createReminder ⟨false, false⟩ fixtureAuditState
          ⟨some "u1", some "t2", none, some "2026"⟩).1
          = .created "Reminder created successfully" d ∧
        (createReminder ⟨false, false⟩ fixtureAuditState
          ⟨some "u1", some "t2", none, some "2026"⟩).2.1.logs
          = fixtureAuditState.logs ++ [e] ∧
        e.action = "CREATE" ∧ e.entityId = d.id) ∧
    ((updateReminder ⟨false, false⟩ fixtureAuditState
        ⟨"doc0", some "u1", none, none, none, some true⟩).1.isSuccess = true →
      ∃ e d, (updateReminder ⟨false, false⟩ fixtureAuditState
          ⟨"doc0", some "u1", none, none, none, some true⟩).1
          = .updated "Reminder updated successfully" d ∧
        d.id = "doc0" ∧
        (updateReminder ⟨false, false⟩ fixtureAuditState
          ⟨"doc0", some "u1", none, none, none, some true⟩).2.1.logs
          = fixtureAuditState.logs ++ [e] ∧
        e.action = "UPDATE" ∧ e.entityId = "doc0") ∧
    ((deleteReminder ⟨false, false⟩ fixtureAuditState "doc1"
        (some "u1")).1.isSuccess = true →
      ∃ e, (deleteReminder ⟨false, false⟩ fixtureAuditState "doc1"
          (some "u1")).2.1.logs = fixtureAuditState.logs ++ [e] ∧
        e.action = "DELETE" ∧ e.entityId = "doc1" ∧
        (deleteReminder ⟨false, false⟩ fixtureAuditState "doc1"
          (some "u1")).2.2 = [.appendLog e, .deleteReminder "doc1"]) :=
  every_mutation_logged_once ⟨false, false⟩ fixtureAuditState
    ⟨some "u1", some "t2", none, some "2026"⟩
    ⟨"doc0", some "u1", none, none, none, some true⟩ "doc1" (some "u1") rfl

/-- A concrete fixture: one admin of `org1` and one patient of `org2`, so
`org1` resolves zero users with role `'user'`. -/
def fixtureOrgState : FireState :=
  ⟨[⟨"r0", ⟨"p1", "t", "", "2024", false, 1⟩⟩], [],
    [⟨"a1", some "Al", "admin", "org1"⟩,
      ⟨"p1", some "Pat", "user", "org2"⟩], 1, 9⟩

/-- Witness for C7 (closed instance): on the fixture, organization `org1`
resolves zero patients; the handler answers `[]` and issues no query. -/
theorem listAllByOrg_empty_safe_witness :
    (fixtureOrgState.users.filter
        (fun u => u.organizationId == "org1" && u.role == "user") = [] →
      listAllByOrg fixtureOrgState "org1" = (.orgList [], fixtureOrgState, [])) ∧
    (∀ ids, .queryRemindersIn ids ∈ (listAllByOrg fixtureOrgState "org1").2.2 →
      ids ≠ []) ∧
    (∃ L, (listAllByOrg fixtureOrgState "org1").1 = .orgList L) :=
  listAllByOrg_empty_safe fixtureOrgState "org1"
